import Mathlib

/- Verification of the FDTD grid engine in photfdtd (src/photfdtd/fdtd/grid.py).

   Shallow embedding conventions:
   - Python floats are modelled as exact rationals where the code only does
     field-free arithmetic (grid spacings, distances), and as real numbers
     where the code computes square roots (time step, courant number).
   - Python exceptions on the modelled paths become an explicit error type,
     and fallible operations return Except.
   - numpy arrays of shape (Nx, Ny, Nz, 3) become total functions over
     natural-number indices; slice assignments only ever write inside the
     declared shape, so out-of-range entries stay at their initial value.
   - boundary / source / detector callbacks are external collaborators (their
     code is not part of grid.py); they are universally quantified hook
     functions acting on the shared E/H tensors and their own private state. -/

namespace Photfdtd

/-- Python exceptions raised on the code paths modelled here. -/
inductive PyErr : Type
  | valueError
  | typeError
  | keyError
  | zeroDivisionError
  | attributeError
deriving DecidableEq

/-- A Python number argument: an int, or a float carried as an exact rational. -/
inductive PyNumber : Type
  | int (n : ℤ)
  | float (q : ℚ)
deriving DecidableEq

/-- Python int() applied to a rational: truncation toward zero. -/
def pytrunc (q : ℚ) : ℤ := if 0 ≤ q then ⌊q⌋ else ⌈q⌉

/-- Grid._handle_distance: an int passes through unchanged (treated as an
index); a float is divided by the spacing of the requested axis and converted
by int(x + 0.5).  The Python method branches on the axis name only to select
which spacing attribute to divide by; the selected spacing is passed here. -/
def handleDistance (distance : PyNumber) (spacing : ℚ) : ℤ :=
  match distance with
  | .int n => n
  | .float q => pytrunc (q / spacing + 1 / 2)

/-- Grid._handle_tuple: a shape must have exactly 3 entries, each converted by
_handle_distance with the matching axis spacing; otherwise ValueError. -/
def handleTuple (shape : List PyNumber) (sx sy sz : ℚ) :
    Except PyErr (ℤ × ℤ × ℤ) :=
  match shape with
  | [x, y, z] => .ok (handleDistance x sx, handleDistance y sy, handleDistance z sz)
  | _ => .error .valueError

/-- self.D = int(self.Nx > 1) + int(self.Ny > 1) + int(self.Nz > 1). -/
def dimensionality (nx ny nz : ℤ) : ℕ :=
  (if 1 < nx then 1 else 0) + (if 1 < ny then 1 else 0) + (if 1 < nz then 1 else 0)

/-- An (Nx, Ny, Nz, 3)-shaped tensor, total over natural indices.  Entries
outside the declared shape are never written by the slice statements below. -/
def Field3 (α : Type) : Type := ℕ → ℕ → ℕ → Fin 3 → α

/-- bd.zeros: the all-zero tensor. -/
def zeroField {α : Type} [Zero α] : Field3 α := fun _ _ _ _ => 0

/-- One numpy statement curl[slice-region, c0] += delta: entries of component
c0 inside the sliced region gain delta, all other entries are unchanged. -/
def slAdd {α : Type} [Ring α] (f : Field3 α) (c0 : Fin 3)
    (mask : ℕ → ℕ → ℕ → Prop) [∀ i j k, Decidable (mask i j k)]
    (delta : ℕ → ℕ → ℕ → α) : Field3 α :=
  fun i j k c => f i j k c + if c = c0 ∧ mask i j k then delta i j k else 0

/-- One numpy statement curl[slice-region, c0] -= delta. -/
def slSub {α : Type} [Ring α] (f : Field3 α) (c0 : Fin 3)
    (mask : ℕ → ℕ → ℕ → Prop) [∀ i j k, Decidable (mask i j k)]
    (delta : ℕ → ℕ → ℕ → α) : Field3 α :=
  fun i j k c => f i j k c - if c = c0 ∧ mask i j k then delta i j k else 0

/-- Grid.curl_E: forward differences of an E-type field of shape
(nx, ny, nz, 3).  Each statement mirrors one numpy slice assignment; the
slice [:-1] along an axis becomes the mask requiring the successor index to
exist, so the last layer along that axis receives no contribution from that
term. -/
def curl_E {α : Type} [CommRing α] (nx ny nz : ℕ) (E : Field3 α) : Field3 α :=
  let curl := zeroField (α := α)
  -- curl[:, :-1, :, 0] += (E[:, 1:, :, 2] - E[:, :-1, :, 2])
  let curl := slAdd curl 0 (fun i j k => i < nx ∧ j + 1 < ny ∧ k < nz)
    (fun i j k => E i (j + 1) k 2 - E i j k 2)
  -- curl[:, :, :-1, 0] -= (E[:, :, 1:, 1] - E[:, :, :-1, 1])
  let curl := slSub curl 0 (fun i j k => i < nx ∧ j < ny ∧ k + 1 < nz)
    (fun i j k => E i j (k + 1) 1 - E i j k 1)
  -- curl[:, :, :-1, 1] += (E[:, :, 1:, 0] - E[:, :, :-1, 0])
  let curl := slAdd curl 1 (fun i j k => i < nx ∧ j < ny ∧ k + 1 < nz)
    (fun i j k => E i j (k + 1) 0 - E i j k 0)
  -- curl[:-1, :, :, 1] -= (E[1:, :, :, 2] - E[:-1, :, :, 2])
  let curl := slSub curl 1 (fun i j k => i + 1 < nx ∧ j < ny ∧ k < nz)
    (fun i j k => E (i + 1) j k 2 - E i j k 2)
  -- curl[:-1, :, :, 2] += (E[1:, :, :, 1] - E[:-1, :, :, 1])
  let curl := slAdd curl 2 (fun i j k => i + 1 < nx ∧ j < ny ∧ k < nz)
    (fun i j k => E (i + 1) j k 1 - E i j k 1)
  -- curl[:, :-1, :, 2] -= (E[:, 1:, :, 0] - E[:, :-1, :, 0])
  let curl := slSub curl 2 (fun i j k => i < nx ∧ j + 1 < ny ∧ k < nz)
    (fun i j k => E i (j + 1) k 0 - E i j k 0)
  curl

/-- Grid.curl_E_with_nonuniform_grid: as curl_E but every axis difference is
divided by that axis's physical spacing. -/
def curl_E_with_nonuniform_grid {α : Type} [Field α] (nx ny nz : ℕ)
    (sx sy sz : α) (E : Field3 α) : Field3 α :=
  let curl := zeroField (α := α)
  -- curl[:, :-1, :, 0] += (E[:, 1:, :, 2] - E[:, :-1, :, 2]) / self.grid_spacing_y
  let curl := slAdd curl 0 (fun i j k => i < nx ∧ j + 1 < ny ∧ k < nz)
    (fun i j k => (E i (j + 1) k 2 - E i j k 2) / sy)
  -- curl[:, :, :-1, 0] -= (E[:, :, 1:, 1] - E[:, :, :-1, 1]) / self.grid_spacing_z
  let curl := slSub curl 0 (fun i j k => i < nx ∧ j < ny ∧ k + 1 < nz)
    (fun i j k => (E i j (k + 1) 1 - E i j k 1) / sz)
  -- curl[:, :, :-1, 1] += (E[:, :, 1:, 0] - E[:, :, :-1, 0]) / self.grid_spacing_z
  let curl := slAdd curl 1 (fun i j k => i < nx ∧ j < ny ∧ k + 1 < nz)
    (fun i j k => (E i j (k + 1) 0 - E i j k 0) / sz)
  -- curl[:-1, :, :, 1] -= (E[1:, :, :, 2] - E[:-1, :, :, 2]) / self.grid_spacing_x
  let curl := slSub curl 1 (fun i j k => i + 1 < nx ∧ j < ny ∧ k < nz)
    (fun i j k => (E (i + 1) j k 2 - E i j k 2) / sx)
  -- curl[:-1, :, :, 2] += (E[1:, :, :, 1] - E[:-1, :, :, 1]) / self.grid_spacing_x
  let curl := slAdd curl 2 (fun i j k => i + 1 < nx ∧ j < ny ∧ k < nz)
    (fun i j k => (E (i + 1) j k 1 - E i j k 1) / sx)
  -- curl[:, :-1, :, 2] -= (E[:, 1:, :, 0] - E[:, :-1, :, 0]) / self.grid_spacing_y
  let curl := slSub curl 2 (fun i j k => i < nx ∧ j + 1 < ny ∧ k < nz)
    (fun i j k => (E i (j + 1) k 0 - E i j k 0) / sy)
  curl

/-- Grid.curl_H: backward differences of an H-type field.  The slice [1:] on
the output axis becomes the mask requiring a predecessor index, so the layer
at index 0 along that axis receives no contribution from that term. -/
def curl_H {α : Type} [CommRing α] (nx ny nz : ℕ) (H : Field3 α) : Field3 α :=
  let curl := zeroField (α := α)
  -- curl[:, 1:, :, 0] += (H[:, 1:, :, 2] - H[:, :-1, :, 2])
  let curl := slAdd curl 0 (fun i j k => i < nx ∧ 1 ≤ j ∧ j < ny ∧ k < nz)
    (fun i j k => H i j k 2 - H i (j - 1) k 2)
  -- curl[:, :, 1:, 0] -= (H[:, :, 1:, 1] - H[:, :, :-1, 1])
  let curl := slSub curl 0 (fun i j k => i < nx ∧ j < ny ∧ 1 ≤ k ∧ k < nz)
    (fun i j k => H i j k 1 - H i j (k - 1) 1)
  -- curl[:, :, 1:, 1] += (H[:, :, 1:, 0] - H[:, :, :-1, 0])
  let curl := slAdd curl 1 (fun i j k => i < nx ∧ j < ny ∧ 1 ≤ k ∧ k < nz)
    (fun i j k => H i j k 0 - H i j (k - 1) 0)
  -- curl[1:, :, :, 1] -= (H[1:, :, :, 2] - H[:-1, :, :, 2])
  let curl := slSub curl 1 (fun i j k => 1 ≤ i ∧ i < nx ∧ j < ny ∧ k < nz)
    (fun i j k => H i j k 2 - H (i - 1) j k 2)
  -- curl[1:, :, :, 2] += (H[1:, :, :, 1] - H[:-1, :, :, 1])
  let curl := slAdd curl 2 (fun i j k => 1 ≤ i ∧ i < nx ∧ j < ny ∧ k < nz)
    (fun i j k => H i j k 1 - H (i - 1) j k 1)
  -- curl[:, 1:, :, 2] -= (H[:, 1:, :, 0] - H[:, :-1, :, 0])
  let curl := slSub curl 2 (fun i j k => i < nx ∧ 1 ≤ j ∧ j < ny ∧ k < nz)
    (fun i j k => H i j k 0 - H i (j - 1) k 0)
  curl

/-- Grid.curl_H_with_nonuniform_grid: as curl_H but every axis difference is
divided by that axis's physical spacing. -/
def curl_H_with_nonuniform_grid {α : Type} [Field α] (nx ny nz : ℕ)
    (sx sy sz : α) (H : Field3 α) : Field3 α :=
  let curl := zeroField (α := α)
  -- curl[:, 1:, :, 0] += (H[:, 1:, :, 2] - H[:, :-1, :, 2]) / self.grid_spacing_y
  let curl := slAdd curl 0 (fun i j k => i < nx ∧ 1 ≤ j ∧ j < ny ∧ k < nz)
    (fun i j k => (H i j k 2 - H i (j - 1) k 2) / sy)
  -- curl[:, :, 1:, 0] -= (H[:, :, 1:, 1] - H[:, :, :-1, 1]) / self.grid_spacing_z
  let curl := slSub curl 0 (fun i j k => i < nx ∧ j < ny ∧ 1 ≤ k ∧ k < nz)
    (fun i j k => (H i j k 1 - H i j (k - 1) 1) / sz)
  -- curl[:, :, 1:, 1] += (H[:, :, 1:, 0] - H[:, :, :-1, 0]) / self.grid_spacing_z
  let curl := slAdd curl 1 (fun i j k => i < nx ∧ j < ny ∧ 1 ≤ k ∧ k < nz)
    (fun i j k => (H i j k 0 - H i j (k - 1) 0) / sz)
  -- curl[1:, :, :, 1] -= (H[1:, :, :, 2] - H[:-1, :, :, 2]) / self.grid_spacing_x
  let curl := slSub curl 1 (fun i j k => 1 ≤ i ∧ i < nx ∧ j < ny ∧ k < nz)
    (fun i j k => (H i j k 2 - H (i - 1) j k 2) / sx)
  -- curl[1:, :, :, 2] += (H[1:, :, :, 1] - H[:-1, :, :, 1]) / self.grid_spacing_x
  let curl := slAdd curl 2 (fun i j k => 1 ≤ i ∧ i < nx ∧ j < ny ∧ k < nz)
    (fun i j k => (H i j k 1 - H (i - 1) j k 1) / sx)
  -- curl[:, 1:, :, 2] -= (H[:, 1:, :, 0] - H[:, :-1, :, 0]) / self.grid_spacing_y
  let curl := slSub curl 2 (fun i j k => i < nx ∧ 1 ≤ j ∧ j < ny ∧ k < nz)
    (fun i j k => (H i j k 0 - H i (j - 1) k 0) / sy)
  curl

lemma ite_div_zero {α : Type} [DivisionRing α] (P : Prop) [Decidable P] (a d : α) :
    (if P then a / d else 0) = (if P then a else 0) / d := by
  split <;> simp

lemma fin3_one_ne_zero : (1 : Fin 3) ≠ 0 := by decide

lemma fin3_two_ne_zero : (2 : Fin 3) ≠ 0 := by decide

lemma fin3_zero_ne_one : (0 : Fin 3) ≠ 1 := by decide

lemma fin3_two_ne_one : (2 : Fin 3) ≠ 1 := by decide

lemma fin3_zero_ne_two : (0 : Fin 3) ≠ 2 := by decide

lemma fin3_one_ne_two : (1 : Fin 3) ≠ 2 := by decide

/-- C6: on a grid whose three axis spacings are all the same constant d, the
non-uniform curl of any input field equals the uniform curl scaled elementwise
by 1/d, for both the E-curl and the H-curl. -/
theorem curl_nonuniform_uniform_scaling {α : Type} [Field α]
    (nx ny nz : ℕ) (sx sy sz d : α) (E H : Field3 α)
    (hx : sx = d) (hy : sy = d) (hz : sz = d) :
    (∀ i j k c, curl_E_with_nonuniform_grid nx ny nz sx sy sz E i j k c
        = curl_E nx ny nz E i j k c * (1 / d)) ∧
    (∀ i j k c, curl_H_with_nonuniform_grid nx ny nz sx sy sz H i j k c
        = curl_H nx ny nz H i j k c * (1 / d)) := by
  subst hx; subst hy; subst hz
  constructor <;> intro i j k c <;>
    simp only [curl_E_with_nonuniform_grid, curl_E, curl_H_with_nonuniform_grid,
      curl_H, slAdd, slSub, zeroField, ite_div_zero] <;> ring

theorem curl_nonuniform_uniform_scaling_witness :
    ((2 : ℚ) = 2) ∧
    curl_E_with_nonuniform_grid 2 2 2 (2 : ℚ) 2 2 (fun i j k _ => (i + 2 * j + k : ℚ)) 0 1 0 2
      = curl_E 2 2 2 (fun i j k _ => (i + 2 * j + k : ℚ)) 0 1 0 2 * (1 / 2) :=
  ⟨rfl, (curl_nonuniform_uniform_scaling 2 2 2 2 2 2 2
    (fun i j k _ => (i + 2 * j + k : ℚ)) (fun i j k _ => (i + 2 * j + k : ℚ))
    rfl rfl rfl).1 0 1 0 2⟩

/-- C5: the slice-assignments of curl_E never write the far-edge layer of the
output along the axis of each forward difference (and curl_H mirrors this at
index 0 for its backward differences); no term wraps around periodically.
Formally: when the input component feeding the only other term of an output
component vanishes, the output component is identically zero on that edge
layer, whatever the values of the input elsewhere. -/
theorem curl_edge_layers_unwritten {α : Type} [CommRing α] (nx ny nz : ℕ)
    (E H : Field3 α) :
    ((∀ i j k, E i j k 0 = 0) → ∀ j k,
      curl_E nx ny nz E (nx - 1) j k 1 = 0 ∧ curl_E nx ny nz E (nx - 1) j k 2 = 0) ∧
    ((∀ i j k, E i j k 1 = 0) → ∀ i k,
      curl_E nx ny nz E i (ny - 1) k 0 = 0 ∧ curl_E nx ny nz E i (ny - 1) k 2 = 0) ∧
    ((∀ i j k, E i j k 2 = 0) → ∀ i j,
      curl_E nx ny nz E i j (nz - 1) 0 = 0 ∧ curl_E nx ny nz E i j (nz - 1) 1 = 0) ∧
    ((∀ i j k, H i j k 0 = 0) → ∀ j k,
      curl_H nx ny nz H 0 j k 1 = 0 ∧ curl_H nx ny nz H 0 j k 2 = 0) ∧
    ((∀ i j k, H i j k 1 = 0) → ∀ i k,
      curl_H nx ny nz H i 0 k 0 = 0 ∧ curl_H nx ny nz H i 0 k 2 = 0) ∧
    ((∀ i j k, H i j k 2 = 0) → ∀ i j,
      curl_H nx ny nz H i j 0 0 = 0 ∧ curl_H nx ny nz H i j 0 1 = 0) := by
  have hmx : ¬(nx - 1 + 1 < nx) := by omega
  have hmy : ¬(ny - 1 + 1 < ny) := by omega
  have hmz : ¬(nz - 1 + 1 < nz) := by omega
  have h10 : ¬(1 ≤ (0 : ℕ)) := by omega
  refine ⟨fun h j k => ?_, fun h i k => ?_, fun h i j => ?_,
    fun h j k => ?_, fun h i k => ?_, fun h i j => ?_⟩ <;>
  · constructor <;>
      simp [curl_E, curl_H, slAdd, slSub, zeroField, h, hmx, hmy, hmz, h10,
        fin3_one_ne_zero, fin3_two_ne_zero, fin3_zero_ne_one, fin3_two_ne_one,
        fin3_zero_ne_two, fin3_one_ne_two]

theorem curl_edge_layers_unwritten_witness :
    (∀ i j k : ℕ, (fun _ _ _ (c : Fin 3) => if c = 2 then (5 : ℚ) else 0) i j k 0 = 0) ∧
    curl_E 2 2 2 (fun _ _ _ (c : Fin 3) => if c = 2 then (5 : ℚ) else 0) (2 - 1) 0 0 1 = 0 ∧
    (∀ i j k : ℕ, (fun _ _ _ (c : Fin 3) => if c = 2 then (7 : ℚ) else 0) i j k 1 = 0) ∧
    curl_H 2 2 2 (fun _ _ _ (c : Fin 3) => if c = 2 then (7 : ℚ) else 0) 0 0 0 0 = 0 := by
  refine ⟨fun i j k => by simp [fin3_zero_ne_two], ?_, fun i j k => by simp [fin3_one_ne_two], ?_⟩
  · exact ((curl_edge_layers_unwritten 2 2 2
      (fun _ _ _ (c : Fin 3) => if c = 2 then (5 : ℚ) else 0)
      (fun _ _ _ (c : Fin 3) => if c = 2 then (7 : ℚ) else 0)).1
      (fun i j k => by simp [fin3_zero_ne_two]) 0 0).1
  · exact ((curl_edge_layers_unwritten 2 2 2
      (fun _ _ _ (c : Fin 3) => if c = 2 then (5 : ℚ) else 0)
      (fun _ _ _ (c : Fin 3) => if c = 2 then (7 : ℚ) else 0)).2.2.2.2.1
      (fun i j k => by simp [fin3_one_ne_two]) 0 0).1

/-- C9 (amended): _handle_distance returns an integer-typed value unchanged;
a non-integer value whose quotient by the axis spacing is nonnegative is
converted by round-half-up, i.e. the floor of quotient + 1/2.  (For negative
quotients the int() conversion truncates toward zero instead, see the
counterexample.) -/
theorem handle_distance_rounding (s : ℚ) (n : ℤ) (q : ℚ) (hq : 0 ≤ q / s) :
    handleDistance (.int n) s = n ∧
    handleDistance (.float q) s = ⌊q / s + 1 / 2⌋ := by
  refine ⟨rfl, ?_⟩
  have h : (0 : ℚ) ≤ q / s + 1 / 2 := by linarith
  show pytrunc (q / s + 1 / 2) = ⌊q / s + 1 / 2⌋
  rw [pytrunc, if_pos h]

theorem handle_distance_rounding_witness :
    (0 ≤ (3 : ℚ) / 2) ∧ handleDistance (.int 5) 2 = 5 ∧
      handleDistance (.float 3) 2 = ⌊(3 : ℚ) / 2 + 1 / 2⌋ :=
  ⟨by norm_num, (handle_distance_rounding 2 5 3 (by norm_num)).1,
    (handle_distance_rounding 2 5 3 (by norm_num)).2⟩

/-- C9 counterexample: for value/spacing = -1.7 the code returns -1 (int()
truncates -1.2 toward zero) while round(value/spacing) with round-half-up
gives -2, so the claimed conversion does not hold for negative values. -/
theorem handle_distance_negative_counterexample :
    handleDistance (.float (-17 / 5)) 2 = -1 ∧
      ⌊((-17 : ℚ) / 5) / 2 + 1 / 2⌋ = -2 ∧ (-1 : ℤ) ≠ -2 := by
  refine ⟨?_, ?_, by decide⟩
  · show pytrunc ((-17 : ℚ) / 5 / 2 + 1 / 2) = -1
    rw [pytrunc, if_neg (by norm_num), Int.ceil_eq_iff]
    constructor <;> norm_num
  · rw [Int.floor_eq_iff]
    constructor <;> norm_num

/-- Modelled from the spec: const.c, the vacuum propagation speed constant
used by the field updates and the time-step formula.  The constants module is
not among the sources in scope; the spec names c only as the vacuum
propagation speed, whose SI value is 299792458 m/s. -/
def c_const : ℝ := 299792458

/-- max_courant_number = float(self.D) ** (-0.5)  (grid.py line 98). -/
noncomputable def maxCourant (D : ℕ) : ℝ := (D : ℝ) ^ (-(1 / 2 : ℝ))

lemma maxCourant_eq_inv_sqrt (D : ℕ) : maxCourant D = (Real.sqrt D)⁻¹ := by
  rw [maxCourant, Real.rpow_neg (Nat.cast_nonneg D), ← Real.sqrt_eq_rpow]

/-- The expression assigned to self.time_step (grid.py lines 113-115), which
divides by the squares of the constructor parameters grid_spacing_x/y/z. -/
noncomputable def timeStepVal (nx ny nz : ℤ) (a b c2 : ℚ) : ℝ :=
  0.99 / (c_const * Real.sqrt
    ((if 1 < nx then (1 : ℝ) else 0) / (a : ℝ) ^ 2
      + (if 1 < ny then (1 : ℝ) else 0) / (b : ℝ) ^ 2
      + (if 1 < nz then (1 : ℝ) else 0) / (c2 : ℝ) ^ 2))

open Classical in
/-- The courant-number block (grid.py lines 97-108).  float(D) ** (-0.5)
raises ZeroDivisionError when D == 0; an explicit courant number above the
bound raises ValueError; no courant number selects 0.99 times the bound. -/
noncomputable def resolveCourant (D : ℕ) (courant : Option ℚ) : Except PyErr ℝ :=
  if D = 0 then .error .zeroDivisionError
  else
    match courant with
    | none => .ok (0.99 * maxCourant D)
    | some q => if maxCourant D < (q : ℝ) then .error .valueError else .ok (q : ℝ)

/-- The time_step assignment (grid.py lines 113-115): the three per-axis
spacing parameters default to None, and None ** 2 raises TypeError. -/
noncomputable def resolveTimeStep (nx ny nz : ℤ) (gsx gsy gsz : Option ℚ) :
    Except PyErr ℝ :=
  match gsx, gsy, gsz with
  | some a, some b, some c2 => .ok (timeStepVal nx ny nz a b c2)
  | _, _, _ => .error .typeError

/-- The state of a Grid object.  animate and total_time are attributes that
__init__ never sets (none models the absence of the Python attribute); the
four component collections hold opaque component identifiers in registration
order. -/
structure Grid where
  Nx : ℤ
  Ny : ℤ
  Nz : ℤ
  grid_spacing : ℚ
  grid_spacing_x : ℚ
  grid_spacing_y : ℚ
  grid_spacing_z : ℚ
  background_index : ℝ
  courant_number : ℝ
  time_step : ℝ
  E : Field3 ℝ
  H : Field3 ℝ
  inverse_permittivity : Field3 ℝ
  inverse_permeability : Field3 ℝ
  priority : ℕ → ℕ → ℕ → ℝ
  time_steps_passed : ℤ
  sources : List ℕ
  boundaries : List ℕ
  detectors : List ℕ
  objects : List ℕ
  animate : Option Bool
  total_time : Option ℤ

/-- Grid.__init__ (grid.py lines 52-155) with a scalar background
permittivity/permeability: resolves the per-axis spacing attributes from the
uniform default, converts the shape, computes D, validates the courant
number, computes the time step from the raw parameters, and allocates the
field and material tensors; animate is never initialized. -/
noncomputable def gridInit (shape : List PyNumber) (grid_spacing : ℚ)
    (gsx gsy gsz : Option ℚ) (permittivity permeability : ℚ)
    (courant : Option ℚ) : Except PyErr Grid :=
  let sx := gsx.getD grid_spacing
  let sy := gsy.getD grid_spacing
  let sz := gsz.getD grid_spacing
  match handleTuple shape sx sy sz with
  | .error e => .error e
  | .ok (nx, ny, nz) =>
    match resolveCourant (dimensionality nx ny nz) courant with
    | .error e => .error e
    | .ok cn =>
      match resolveTimeStep nx ny nz gsx gsy gsz with
      | .error e => .error e
      | .ok ts =>
        .ok { Nx := nx, Ny := ny, Nz := nz,
              grid_spacing := grid_spacing,
              grid_spacing_x := sx, grid_spacing_y := sy, grid_spacing_z := sz,
              background_index := (permittivity : ℝ) ^ ((0.5 : ℝ)),
              courant_number := cn, time_step := ts,
              E := zeroField, H := zeroField,
              inverse_permittivity := fun _ _ _ _ => 1 / (permittivity : ℝ),
              inverse_permeability := fun _ _ _ _ => 1 / (permeability : ℝ),
              priority := fun _ _ _ => 0,
              time_steps_passed := 0,
              sources := [], boundaries := [], detectors := [], objects := [],
              animate := none, total_time := none }

lemma resolveCourant_some_high (D : ℕ) (q : ℚ) (hD : D ≠ 0)
    (hq : maxCourant D < (q : ℝ)) :
    resolveCourant D (some q) = .error .valueError := by
  unfold resolveCourant
  rw [if_neg hD]
  exact if_pos hq

lemma resolveCourant_none (D : ℕ) (hD : D ≠ 0) :
    resolveCourant D none = .ok (0.99 * maxCourant D) := by
  unfold resolveCourant
  rw [if_neg hD]

lemma gridInit_explicit_spacings (nx ny nz : ℤ) (gs sx sy sz p m : ℚ)
    (hD0 : dimensionality nx ny nz ≠ 0) :
    gridInit [.int nx, .int ny, .int nz] gs (some sx) (some sy) (some sz) p m none
      = .ok { Nx := nx, Ny := ny, Nz := nz,
              grid_spacing := gs,
              grid_spacing_x := sx, grid_spacing_y := sy, grid_spacing_z := sz,
              background_index := (p : ℝ) ^ ((0.5 : ℝ)),
              courant_number := 0.99 * maxCourant (dimensionality nx ny nz),
              time_step := timeStepVal nx ny nz sx sy sz,
              E := zeroField, H := zeroField,
              inverse_permittivity := fun _ _ _ _ => 1 / (p : ℝ),
              inverse_permeability := fun _ _ _ _ => 1 / (m : ℝ),
              priority := fun _ _ _ => 0,
              time_steps_passed := 0,
              sources := [], boundaries := [], detectors := [], objects := [],
              animate := none, total_time := none } := by
  simp only [gridInit, handleTuple, handleDistance, Option.getD,
    resolveTimeStep, resolveCourant_none _ hD0]

/-- C2 (code bug): constructing with only the uniform default spacing raises
TypeError, because the time_step formula reads the raw constructor parameters
grid_spacing_x/y/z (still None by default) instead of the resolved spacing
attributes.  At the spec's scenario -- shape (1, 60, 60), default spacing
155e-9, no courant override -- the active-axis count is indeed 2, but
construction fails instead of succeeding with the specified time_step. -/
theorem grid_default_spacing_construction_typeerror :
    gridInit [.int 1, .int 60, .int 60] (155e-9 : ℚ) none none none 1 1 none
      = .error .typeError ∧ dimensionality 1 60 60 = 2 := by
  constructor
  · rfl
  · decide

/-- C3: for any integer shape with at least one active axis, an explicit
courant number exceeding D ** (-0.5) makes construction fail with ValueError
(whatever the spacing overrides are), and omitting the courant number (with
explicit spacings, so that construction can succeed at all) yields
courant_number exactly 0.99 * D ** (-0.5). -/
theorem grid_courant_validation (nx ny nz : ℤ) (gs : ℚ) (gsx gsy gsz : Option ℚ)
    (sx sy sz p m q : ℚ)
    (hD : 1 ≤ dimensionality nx ny nz)
    (hq : maxCourant (dimensionality nx ny nz) < (q : ℝ)) :
    gridInit [.int nx, .int ny, .int nz] gs gsx gsy gsz p m (some q)
        = .error .valueError ∧
    ∃ g, gridInit [.int nx, .int ny, .int nz] gs (some sx) (some sy) (some sz) p m none
        = .ok g ∧ g.courant_number = 0.99 * maxCourant (dimensionality nx ny nz) := by
  have hD0 : dimensionality nx ny nz ≠ 0 := by omega
  constructor
  · simp only [gridInit, handleTuple, handleDistance,
      resolveCourant_some_high _ _ hD0 hq]
  · exact ⟨_, gridInit_explicit_spacings nx ny nz gs sx sy sz p m hD0, rfl⟩

theorem grid_courant_validation_witness :
    (1 ≤ dimensionality 1 60 60) ∧
    (maxCourant (dimensionality 1 60 60) < ((4 / 5 : ℚ) : ℝ)) ∧
    (gridInit [.int 1, .int 60, .int 60] (155e-9 : ℚ) (some (155e-9)) (some (155e-9))
        (some (155e-9)) 1 1 (some (4 / 5)) = .error .valueError ∧
      ∃ g, gridInit [.int 1, .int 60, .int 60] (155e-9 : ℚ) (some (155e-9))
          (some (155e-9)) (some (155e-9)) 1 1 none = .ok g ∧
        g.courant_number = 0.99 * maxCourant (dimensionality 1 60 60)) := by
  have h1 : (1 : ℕ) ≤ dimensionality 1 60 60 := by decide
  have h2 : maxCourant (dimensionality 1 60 60) < ((4 / 5 : ℚ) : ℝ) := by
    have hd : dimensionality 1 60 60 = 2 := by decide
    rw [hd, maxCourant_eq_inv_sqrt]
    have hs : (0 : ℝ) < Real.sqrt 2 := Real.sqrt_pos.mpr (by norm_num)
    have hsq : Real.sqrt 2 ^ 2 = 2 := Real.sq_sqrt (by norm_num)
    have hinv : (Real.sqrt 2)⁻¹ * Real.sqrt 2 = 1 := inv_mul_cancel₀ (ne_of_gt hs)
    have hcast : ((2 : ℕ) : ℝ) = 2 := by norm_num
    rw [hcast]
    have hq : ((4 / 5 : ℚ) : ℝ) = 4 / 5 := by norm_num
    rw [hq]
    nlinarith [hs, hsq, hinv, sq_nonneg (Real.sqrt 2 - 5 / 4)]
  exact ⟨h1, h2, grid_courant_validation 1 60 60 (155e-9) (some (155e-9))
    (some (155e-9)) (some (155e-9)) (155e-9) (155e-9) (155e-9) 1 1 (4 / 5) h1 h2⟩

/-- The shared simulation state a component hook can touch: the E and H
tensors plus the components' own private state (PML split fields, detector
time series, ...), abstracted as one value of an arbitrary type. -/
structure Sim (β : Type) where
  E : Field3 ℝ
  H : Field3 ℝ
  aux : β

/-- The collaborator callbacks invoked by the grid, indexed by the component
identifiers stored in the grid's collections.  Their implementations live
outside grid.py; theorems quantify over them. -/
structure Hooks (β : Type) where
  update_phi_E : ℕ → ℚ → ℚ → ℚ → Sim β → Sim β
  boundary_update_E : ℕ → Sim β → Sim β
  source_update_E : ℕ → Sim β → Sim β
  detect_E : ℕ → Sim β → Sim β
  update_phi_H : ℕ → ℚ → ℚ → ℚ → Sim β → Sim β
  boundary_update_H : ℕ → Sim β → Sim β
  source_update_H : ℕ → Sim β → Sim β
  detect_H : ℕ → Sim β → Sim β
  init_h5 : ℕ → Sim β → Sim β

/-- Grid.update_E (grid.py lines 424-451): boundary update_phi_E hooks with
the three axis spacings, then E += c * time_step * inverse_permittivity *
curl_H_with_nonuniform_grid(H), then boundary update_E, source update_E and
detector detect_E hooks, each collection in registration order. -/
noncomputable def update_E {β : Type} (hooks : Hooks β) (g : Grid) (aux : β) :
    Grid × β :=
  let s : Sim β := ⟨g.E, g.H, aux⟩
  let s := g.boundaries.foldl (fun s b =>
    hooks.update_phi_E b g.grid_spacing_x g.grid_spacing_y g.grid_spacing_z s) s
  let curl := curl_H_with_nonuniform_grid g.Nx.toNat g.Ny.toNat g.Nz.toNat
    (g.grid_spacing_x : ℝ) (g.grid_spacing_y : ℝ) (g.grid_spacing_z : ℝ) s.H
  let s : Sim β := { s with E := (fun i j k c =>
    s.E i j k c + c_const * g.time_step *
      g.inverse_permittivity i j k c * curl i j k c) }
  let s := g.boundaries.foldl (fun s b => hooks.boundary_update_E b s) s
  let s := g.sources.foldl (fun s src => hooks.source_update_E src s) s
  let s := g.detectors.foldl (fun s det => hooks.detect_E det s) s
  ({ g with E := s.E, H := s.H }, s.aux)

/-- Grid.update_H (grid.py lines 453-479): the mirror of update_E with
H -= c * time_step * inverse_permeability * curl_E_with_nonuniform_grid(E). -/
noncomputable def update_H {β : Type} (hooks : Hooks β) (g : Grid) (aux : β) :
    Grid × β :=
  let s : Sim β := ⟨g.E, g.H, aux⟩
  let s := g.boundaries.foldl (fun s b =>
    hooks.update_phi_H b g.grid_spacing_x g.grid_spacing_y g.grid_spacing_z s) s
  let curl := curl_E_with_nonuniform_grid g.Nx.toNat g.Ny.toNat g.Nz.toNat
    (g.grid_spacing_x : ℝ) (g.grid_spacing_y : ℝ) (g.grid_spacing_z : ℝ) s.E
  let s : Sim β := { s with H := (fun i j k c =>
    s.H i j k c - c_const * g.time_step *
      g.inverse_permeability i j k c * curl i j k c) }
  let s := g.boundaries.foldl (fun s b => hooks.boundary_update_H b s) s
  let s := g.sources.foldl (fun s src => hooks.source_update_H src s) s
  let s := g.detectors.foldl (fun s det => hooks.detect_H det s) s
  ({ g with E := s.E, H := s.H }, s.aux)

/-- Grid.step (grid.py lines 372-380): update_E, then update_H, then the
frame-capture check reading self.animate (AttributeError when the attribute
was never set; a truthy flag at the frame interval calls save_frame, an
external rendering collaborator with no effect on the grid state modelled
here), then time_steps_passed += 1. -/
noncomputable def step {β : Type} (hooks : Hooks β) (interval : ℤ) (g : Grid)
    (aux : β) : Except PyErr (Grid × β) :=
  let p := update_E hooks g aux
  let q := update_H hooks p.1 p.2
  match q.1.animate with
  | none => .error .attributeError
  | some _anim =>
    .ok ({ q.1 with time_steps_passed := q.1.time_steps_passed + 1 }, q.2)

/-- The per-step sequence exactly as the specification words it, as one
linear chain: boundary pre-E hooks with the three axis spacings in
registration order; E set to E + c * time_step * inverse_permittivity *
curl_H_with_nonuniform_grid(H); boundary update_E, source update_E and
detector detect_E hooks in order; the same mirrored for H with H set to
H - c * time_step * inverse_permeability * curl_E_with_nonuniform_grid(E);
finally time_steps_passed incremented by exactly 1.  Spec-side definition,
compared against step. -/
noncomputable def stepAsSpecified {β : Type} (hooks : Hooks β) (g : Grid)
    (aux : β) : Grid × β :=
  let s : Sim β := ⟨g.E, g.H, aux⟩
  let s := g.boundaries.foldl (fun s b =>
    hooks.update_phi_E b g.grid_spacing_x g.grid_spacing_y g.grid_spacing_z s) s
  let s : Sim β := { s with E := (fun i j k c =>
    s.E i j k c + c_const * g.time_step * g.inverse_permittivity i j k c *
      curl_H_with_nonuniform_grid g.Nx.toNat g.Ny.toNat g.Nz.toNat
        (g.grid_spacing_x : ℝ) (g.grid_spacing_y : ℝ)
        (g.grid_spacing_z : ℝ) s.H i j k c) }
  let s := g.boundaries.foldl (fun s b => hooks.boundary_update_E b s) s
  let s := g.sources.foldl (fun s src => hooks.source_update_E src s) s
  let s := g.detectors.foldl (fun s det => hooks.detect_E det s) s
  let s := g.boundaries.foldl (fun s b =>
    hooks.update_phi_H b g.grid_spacing_x g.grid_spacing_y g.grid_spacing_z s) s
  let s : Sim β := { s with H := (fun i j k c =>
    s.H i j k c - c_const * g.time_step * g.inverse_permeability i j k c *
      curl_E_with_nonuniform_grid g.Nx.toNat g.Ny.toNat g.Nz.toNat
        (g.grid_spacing_x : ℝ) (g.grid_spacing_y : ℝ)
        (g.grid_spacing_z : ℝ) s.E i j k c) }
  let s := g.boundaries.foldl (fun s b => hooks.boundary_update_H b s) s
  let s := g.sources.foldl (fun s src => hooks.source_update_H src s) s
  let s := g.detectors.foldl (fun s det => hooks.detect_H det s) s
  ({ g with E := s.E, H := s.H, time_steps_passed := g.time_steps_passed + 1 }, s.aux)

lemma step_of_animate_false {β : Type} (hooks : Hooks β) (interval : ℤ)
    (g : Grid) (aux : β) (h : g.animate = some false) :
    step hooks interval g aux = .ok (stepAsSpecified hooks g aux) := by
  cases g with
  | mk Nx Ny Nz gs gsx gsy gsz bi cn ts E H ip im pr tsp so bo de ob an tt =>
    have h3 : an = some false := h
    subst h3
    rfl

lemma stepAsSpecified_animate {β : Type} (hooks : Hooks β) (g : Grid) (aux : β) :
    (stepAsSpecified hooks g aux).1.animate = g.animate := rfl

/-- C1: with the externally-set animate flag present and false (the operable
configuration; the flag is consulted only by the out-of-scope frame capture,
and C10 covers its absence), one call to step() performs exactly the claimed
sequence: boundary pre-E hooks with the three axis spacings in registration
order, E set to E + c * time_step * inverse_permittivity *
curl_H_with_nonuniform_grid(H), boundary / source / detector E hooks in
order, the same mirrored for H with the subtracting update, and finally a
time_steps_passed increment of exactly 1. -/
theorem grid_step_sequence {β : Type} (hooks : Hooks β) (interval : ℤ)
    (g : Grid) (aux : β) (h : g.animate = some false) :
    step hooks interval g aux = .ok (stepAsSpecified hooks g aux) ∧
    (stepAsSpecified hooks g aux).1.time_steps_passed = g.time_steps_passed + 1 :=
  ⟨step_of_animate_false hooks interval g aux h, rfl⟩

/-- A concrete identity implementation of the collaborator callbacks. -/
noncomputable def trivialHooks : Hooks Unit where
  update_phi_E := fun _ _ _ _ s => s
  boundary_update_E := fun _ s => s
  source_update_E := fun _ s => s
  detect_E := fun _ s => s
  update_phi_H := fun _ _ _ _ s => s
  boundary_update_H := fun _ s => s
  source_update_H := fun _ s => s
  detect_H := fun _ s => s
  init_h5 := fun _ s => s

/-- A concrete grid state whose animate flag has been set to False by the
caller, as real driver code does before stepping. -/
noncomputable def gSample : Grid where
  Nx := 2
  Ny := 2
  Nz := 2
  grid_spacing := 1
  grid_spacing_x := 1
  grid_spacing_y := 1
  grid_spacing_z := 1
  background_index := 1
  courant_number := 1
  time_step := 1
  E := zeroField
  H := zeroField
  inverse_permittivity := fun _ _ _ _ => 1
  inverse_permeability := fun _ _ _ _ => 1
  priority := fun _ _ _ => 0
  time_steps_passed := 0
  sources := []
  boundaries := []
  detectors := []
  objects := []
  animate := some false
  total_time := none

theorem grid_step_sequence_witness :
    gSample.animate = some false ∧
    step trivialHooks 100 gSample () = .ok (stepAsSpecified trivialHooks gSample ()) ∧
    (stepAsSpecified trivialHooks gSample ()).1.time_steps_passed
      = gSample.time_steps_passed + 1 :=
  ⟨rfl, (grid_step_sequence trivialHooks 100 gSample () rfl).1,
    (grid_step_sequence trivialHooks 100 gSample () rfl).2⟩

/-- Grid.reset (grid.py lines 481-485): multiplies H, E and
time_steps_passed by zero in place. -/
noncomputable def reset (g : Grid) : Grid :=
  { g with H := fun i j k c => g.H i j k c * 0,
           E := fun i j k c => g.E i j k c * 0,
           time_steps_passed := g.time_steps_passed * 0 }

/-- C4: reset() zeroes every entry of E and every entry of H and resets
time_steps_passed to 0, while leaving the shape, the per-axis spacings,
time_step, courant_number, the material tensors, the priority matrix and the
four component collections unchanged. -/
theorem grid_reset_zeroes_fields_only (g : Grid) :
    (∀ i j k c, (reset g).E i j k c = 0) ∧
    (∀ i j k c, (reset g).H i j k c = 0) ∧
    (reset g).time_steps_passed = 0 ∧
    (reset g).Nx = g.Nx ∧ (reset g).Ny = g.Ny ∧ (reset g).Nz = g.Nz ∧
    (reset g).grid_spacing = g.grid_spacing ∧
    (reset g).grid_spacing_x = g.grid_spacing_x ∧
    (reset g).grid_spacing_y = g.grid_spacing_y ∧
    (reset g).grid_spacing_z = g.grid_spacing_z ∧
    (reset g).time_step = g.time_step ∧
    (reset g).courant_number = g.courant_number ∧
    (reset g).inverse_permittivity = g.inverse_permittivity ∧
    (reset g).inverse_permeability = g.inverse_permeability ∧
    (reset g).priority = g.priority ∧
    (reset g).sources = g.sources ∧
    (reset g).boundaries = g.boundaries ∧
    (reset g).detectors = g.detectors ∧
    (reset g).objects = g.objects :=
  ⟨fun _ _ _ _ => mul_zero _, fun _ _ _ _ => mul_zero _, mul_zero _,
    rfl, rfl, rfl, rfl, rfl, rfl, rfl, rfl, rfl, rfl, rfl, rfl, rfl, rfl, rfl, rfl⟩

/-- A Python time argument to run or _handle_time: an int step count, or a
float physical duration.  Durations are divided by the real-valued time step,
so the float is carried as a real here. -/
inductive PyTime : Type
  | int (n : ℤ)
  | float (x : ℝ)

open Classical in
/-- Python int() applied to a real: truncation toward zero. -/
noncomputable def pytruncR (x : ℝ) : ℤ := if 0 ≤ x then ⌊x⌋ else ⌈x⌉

/-- Grid._handle_time (grid.py lines 272-276): int passthrough, else
int(value / time_step + 0.5). -/
noncomputable def handleTime (t : PyTime) (time_step : ℝ) : ℤ :=
  match t with
  | .int n => n
  | .float x => pytruncR (x / time_step + 1 / 2)

/-- The step count computed by run (grid.py lines 354-356): a float duration
is divided by the time step and truncated by int(); an int is used directly.
_handle_time is not consulted by run. -/
noncomputable def runSteps (t : PyTime) (time_step : ℝ) : ℤ :=
  match t with
  | .int n => n
  | .float x => pytruncR (x / time_step)

/-- The grid state just before run's stepping loop: self.total_time has been
assigned the computed step count, and every detector's __init_h5file__ hook
has run.  (Frame-folder handling on a truthy animate flag is external file
I/O with no effect on the grid state modelled here.) -/
noncomputable def runPrep {β : Type} (hooks : Hooks β) (t : PyTime) (g : Grid)
    (aux : β) : Grid × β :=
  let g1 := { g with total_time := some (runSteps t g.time_step) }
  let s := g1.detectors.foldl (fun s d => hooks.init_h5 d s) ⟨g1.E, g1.H, aux⟩
  ({ g1 with E := s.E, H := s.H }, s.aux)

/-- run's stepping loop: n calls to step, stopping at the first error. -/
noncomputable def runLoop {β : Type} (hooks : Hooks β) (interval : ℤ) (n : ℕ)
    (g : Grid) (aux : β) : Except PyErr (Grid × β) :=
  match n with
  | 0 => .ok (g, aux)
  | m + 1 =>
    match step hooks interval g aux with
    | .error e => .error e
    | .ok p => runLoop hooks interval m p.1 p.2

/-- Grid.run (grid.py lines 345-370): a float total_time is divided by the
time step, then self.total_time = int(total_time) -- int(None) raises
TypeError when no duration is given.  The progress bar is external
presentation.  Reading self.animate raises AttributeError when the attribute
was never set.  Then each detector's __init_h5file__ runs and step is invoked
once per loop iteration. -/
noncomputable def run {β : Type} (hooks : Hooks β) (total_time : Option PyTime)
    (interval : ℤ) (g : Grid) (aux : β) : Except PyErr (Grid × β) :=
  match total_time with
  | none => .error .typeError
  | some t =>
    match g.animate with
    | none => .error .attributeError
    | some _anim =>
      let p := runPrep hooks t g aux
      runLoop hooks interval (runSteps t g.time_step).toNat p.1 p.2

lemma runPrep_animate {β : Type} (hooks : Hooks β) (t : PyTime) (g : Grid)
    (aux : β) : (runPrep hooks t g aux).1.animate = g.animate := rfl

lemma runLoop_iterate {β : Type} (hooks : Hooks β) (interval : ℤ) (n : ℕ) :
    ∀ (g : Grid) (aux : β), g.animate = some false →
      runLoop hooks interval n g aux
        = .ok ((fun p : Grid × β => stepAsSpecified hooks p.1 p.2)^[n] (g, aux)) := by
  induction n with
  | zero => intro g aux _; rfl
  | succ m ih =>
    intro g aux h
    have hanim : (stepAsSpecified hooks g aux).1.animate = some false := by
      rw [stepAsSpecified_animate]; exact h
    have hstep : runLoop hooks interval (m + 1) g aux
        = runLoop hooks interval m (stepAsSpecified hooks g aux).1
            (stepAsSpecified hooks g aux).2 := by
      show (match step hooks interval g aux with
        | Except.error e => (Except.error e : Except PyErr (Grid × β))
        | Except.ok p => runLoop hooks interval m p.1 p.2) = _
      rw [step_of_animate_false hooks interval g aux h]
    rw [hstep, ih _ _ hanim, Function.iterate_succ_apply]

/-- C8 (amended): run converts a float duration by dividing by time_step and
truncating toward zero with int() -- not via the round-half-up _handle_time
conversion -- uses an integer argument directly as the step count, and, with
the animate flag set, invokes the step sequence exactly that many times. -/
theorem grid_run_step_count {β : Type} (hooks : Hooks β) (g : Grid) (aux : β)
    (interval : ℤ) (t : PyTime) (n : ℤ) (x ts : ℝ)
    (h : g.animate = some false) :
    run hooks (some t) interval g aux
      = .ok ((fun p : Grid × β =>
          stepAsSpecified hooks p.1 p.2)^[(runSteps t g.time_step).toNat]
            (runPrep hooks t g aux)) ∧
    runSteps (.int n) ts = n ∧
    runSteps (.float x) ts = pytruncR (x / ts) := by
  refine ⟨?_, rfl, rfl⟩
  show (match g.animate with
    | none => Except.error PyErr.attributeError
    | some _anim => runLoop hooks interval (runSteps t g.time_step).toNat
        (runPrep hooks t g aux).1 (runPrep hooks t g aux).2) = _
  rw [h]
  exact runLoop_iterate hooks interval _ _ _
    (by rw [runPrep_animate]; exact h)

theorem grid_run_step_count_witness :
    gSample.animate = some false ∧
    run trivialHooks (some (.int 2)) 100 gSample ()
      = .ok ((fun p : Grid × Unit =>
          stepAsSpecified trivialHooks p.1 p.2)^[(runSteps (.int 2) gSample.time_step).toNat]
            (runPrep trivialHooks (.int 2) gSample ())) ∧
    runSteps (.int 5) 1 = 5 ∧ runSteps (.float 3) 1 = pytruncR (3 / 1) :=
  ⟨rfl, (grid_run_step_count trivialHooks gSample () 100 (.int 2) 5 3 1 rfl).1,
    (grid_run_step_count trivialHooks gSample () 100 (.int 2) 5 3 1 rfl).2.1,
    (grid_run_step_count trivialHooks gSample () 100 (.int 2) 5 3 1 rfl).2.2⟩

/-- The time step of the spec's demo configuration: shape (1, 60, 60) with
all three spacings 155e-9 passed explicitly. -/
noncomputable def tsDemo : ℝ := timeStepVal 1 60 60 (155e-9) (155e-9) (155e-9)

lemma tsDemo_pos : 0 < tsDemo := by
  have hs : (0 : ℝ) < ((155e-9 : ℚ) : ℝ) := by
    exact_mod_cast (by norm_num : (0 : ℚ) < 155e-9)
  have h60 : (1 : ℤ) < 60 := by norm_num
  have h11 : ¬((1 : ℤ) < 1) := by norm_num
  unfold tsDemo timeStepVal
  rw [if_neg h11, if_pos h60, zero_div, zero_add]
  have h1s : 0 < 1 / ((155e-9 : ℚ) : ℝ) ^ 2 := div_pos one_pos (pow_pos hs 2)
  have hsqrt : 0 < Real.sqrt
      (1 / ((155e-9 : ℚ) : ℝ) ^ 2 + 1 / ((155e-9 : ℚ) : ℝ) ^ 2) :=
    Real.sqrt_pos.mpr (by linarith)
  have hc : (0 : ℝ) < c_const := by unfold c_const; norm_num
  exact div_pos (by norm_num) (mul_pos hc hsqrt)

/-- C8 counterexample: at a duration of 2.7 time steps of the demo grid, run
computes int(2.7) = 2 loop iterations while the claimed time-to-steps
conversion (round-half-up _handle_time) gives 3. -/
theorem grid_run_rounding_counterexample :
    runSteps (.float (27 / 10 * tsDemo)) tsDemo = 2 ∧
    handleTime (.float (27 / 10 * tsDemo)) tsDemo = 3 ∧ (2 : ℤ) ≠ 3 := by
  have hts : tsDemo ≠ 0 := ne_of_gt tsDemo_pos
  have hdiv : 27 / 10 * tsDemo / tsDemo = (27 / 10 : ℝ) := by
    field_simp
    ring
  refine ⟨?_, ?_, by decide⟩
  · show pytruncR (27 / 10 * tsDemo / tsDemo) = 2
    rw [hdiv, pytruncR, if_pos (by norm_num : (0 : ℝ) ≤ 27 / 10)]
    rw [Int.floor_eq_iff]
    constructor <;> norm_num
  · show pytruncR (27 / 10 * tsDemo / tsDemo + 1 / 2) = 3
    rw [hdiv, pytruncR, if_pos (by norm_num : (0 : ℝ) ≤ 27 / 10 + 1 / 2)]
    rw [Int.floor_eq_iff]
    constructor <;> norm_num

lemma step_error_of_animate_none {β : Type} (hooks : Hooks β) (interval : ℤ)
    (g : Grid) (aux : β) (h : g.animate = none) :
    step hooks interval g aux = .error .attributeError := by
  cases g with
  | mk Nx Ny Nz gs gsx gsy gsz bi cn ts E H ip im pr tsp so bo de ob an tt =>
    have h3 : an = none := h
    subst h3
    rfl

lemma run_error_of_animate_none {β : Type} (hooks : Hooks β) (interval : ℤ)
    (g : Grid) (aux : β) (t : PyTime) (h : g.animate = none) :
    run hooks (some t) interval g aux = .error .attributeError := by
  cases g with
  | mk Nx Ny Nz gs gsx gsy gsz bi cn ts E H ip im pr tsp so bo de ob an tt =>
    have h3 : an = none := h
    subst h3
    rfl

/-- C10: the constructor never initializes the animate attribute, and on
every grid it returns both step() and run() raise AttributeError: run()
before invoking any step, and step() at the frame-capture check, after the
field updates but before the time_steps_passed increment; step() can only
succeed after the caller has set an animate attribute externally. -/
theorem grid_animate_uninitialized (shape : List PyNumber) (gs : ℚ)
    (gsx gsy gsz : Option ℚ) (p m : ℚ) (cn : Option ℚ) (g : Grid)
    (hok : gridInit shape gs gsx gsy gsz p m cn = .ok g) :
    g.animate = none ∧
    (∀ (β : Type) (hooks : Hooks β) (interval : ℤ) (aux : β),
      step hooks interval g aux = .error .attributeError) ∧
    (∀ (β : Type) (hooks : Hooks β) (interval : ℤ) (aux : β) (t : PyTime),
      run hooks (some t) interval g aux = .error .attributeError) := by
  have hanim : g.animate = none := by
    simp only [gridInit] at hok
    split at hok
    · exact Except.noConfusion hok
    split at hok
    · exact Except.noConfusion hok
    split at hok
    · exact Except.noConfusion hok
    cases hok
    rfl
  exact ⟨hanim,
    fun β hooks interval aux => step_error_of_animate_none hooks interval g aux hanim,
    fun β hooks interval aux t => run_error_of_animate_none hooks interval g aux t hanim⟩

/-- The grid the constructor returns on the demo configuration (explicit
spacings, so that construction succeeds at all). -/
noncomputable def gDemo : Grid :=
  match gridInit [.int 1, .int 60, .int 60] (155e-9 : ℚ) (some (155e-9))
      (some (155e-9)) (some (155e-9)) 1 1 none with
  | .ok g => g
  | .error _ => gSample

theorem grid_animate_uninitialized_witness :
    gridInit [.int 1, .int 60, .int 60] (155e-9 : ℚ) (some (155e-9))
        (some (155e-9)) (some (155e-9)) 1 1 none = .ok gDemo ∧
    gDemo.animate = none ∧
    step trivialHooks 100 gDemo () = .error .attributeError ∧
    run trivialHooks (some (.int 2)) 100 gDemo () = .error .attributeError := by
  have hok : gridInit [.int 1, .int 60, .int 60] (155e-9 : ℚ) (some (155e-9))
      (some (155e-9)) (some (155e-9)) 1 1 none = .ok gDemo := by
    rw [gridInit_explicit_spacings 1 60 60 (155e-9 : ℚ) (155e-9) (155e-9) (155e-9) 1 1
      (by decide)]
    unfold gDemo
    rw [gridInit_explicit_spacings 1 60 60 (155e-9 : ℚ) (155e-9) (155e-9) (155e-9) 1 1
      (by decide)]
  have hmain := grid_animate_uninitialized [.int 1, .int 60, .int 60] (155e-9 : ℚ)
    (some (155e-9)) (some (155e-9)) (some (155e-9)) 1 1 none gDemo hok
  exact ⟨hok, hmain.1, hmain.2.1 Unit trivialHooks 100 (),
    hmain.2.2 Unit trivialHooks 100 () (.int 2)⟩

/-- A single axis key of the region-assignment operator: a number, a slice
(possibly with missing components), or a list of numbers. -/
inductive SingleKey : Type
  | num (n : PyNumber)
  | slc (lo hi st : Option PyNumber)
  | lst (l : List PyNumber)

/-- The bracket key of Grid.__setitem__: a bare key or a tuple of keys. -/
inductive GridKey : Type
  | single (k : SingleKey)
  | tup (ks : List SingleKey)

/-- A normalized axis key as handed to the component's _register_grid. -/
inductive NormKey : Type
  | idxList (l : List ℤ)
  | slc (lo hi st : Option ℤ)

/-- Grid._handle_slice, per component: values pass through unless they are
floats, which go through _handle_distance (ints stay ints, None stays None). -/
def handleSliceComponent (o : Option PyNumber) (spacing : ℚ) : Option ℤ :=
  match o with
  | none => none
  | some (.int n) => some n
  | some (.float q) => some (handleDistance (.float q) spacing)

/-- Grid._handle_single_key: a list maps _handle_distance over its entries
(len succeeds); a slice goes through _handle_slice; a bare number becomes a
one-element index list. -/
def handleSingleKey (k : SingleKey) (spacing : ℚ) : NormKey :=
  match k with
  | .lst l => .idxList (l.map (fun x => handleDistance x spacing))
  | .slc lo hi st => .slc (handleSliceComponent lo spacing)
      (handleSliceComponent hi spacing) (handleSliceComponent st spacing)
  | .num n => .idxList [handleDistance n spacing]

/-- Grid.__setitem__ (grid.py lines 515-532): a non-tuple key is combined
with two full slices; a tuple of 1-3 keys is padded with full slices; any
other tuple raises KeyError before any normalization or registration.  On
success the triple is the (x, y, z) argument passed to the component's
_register_grid callback (external); the grid itself is not mutated by
__setitem__. -/
def setitem (g : Grid) (key : GridKey) : Except PyErr (NormKey × NormKey × NormKey) :=
  match key with
  | .single k =>
    .ok (handleSingleKey k g.grid_spacing_x,
         handleSingleKey (.slc none none none) g.grid_spacing_y,
         handleSingleKey (.slc none none none) g.grid_spacing_z)
  | .tup ks =>
    match ks with
    | [x] => .ok (handleSingleKey x g.grid_spacing_x,
                  handleSingleKey (.slc none none none) g.grid_spacing_y,
                  handleSingleKey (.slc none none none) g.grid_spacing_z)
    | [x, y] => .ok (handleSingleKey x g.grid_spacing_x,
                     handleSingleKey y g.grid_spacing_y,
                     handleSingleKey (.slc none none none) g.grid_spacing_z)
    | [x, y, z] => .ok (handleSingleKey x g.grid_spacing_x,
                        handleSingleKey y g.grid_spacing_y,
                        handleSingleKey z g.grid_spacing_z)
    | _ => .error .keyError

/-- C7: assigning a component through the bracket operator with a tuple key
of more than 3 axis keys raises KeyError before any mutation: no register
callback arguments are produced, so the register callback is never invoked
and the grid's collections and tensors are untouched. -/
theorem grid_setitem_too_many_keys (g : Grid) (ks : List SingleKey)
    (h : 3 < ks.length) :
    setitem g (.tup ks) = .error .keyError := by
  rcases ks with _ | ⟨a, _ | ⟨b, _ | ⟨c, _ | ⟨d, rest⟩⟩⟩⟩ <;>
    first
      | rfl
      | simp at h

theorem grid_setitem_too_many_keys_witness :
    3 < [SingleKey.num (.int 0), .num (.int 1), .num (.int 2), .num (.int 3)].length ∧
    setitem gSample
        (.tup [SingleKey.num (.int 0), .num (.int 1), .num (.int 2), .num (.int 3)])
      = .error .keyError :=
  ⟨by decide, grid_setitem_too_many_keys gSample _ (by decide)⟩

end Photfdtd
